import Mathlib

/-!
Shallow embedding of the two source files of this repository:

* `openks/distributed/openks_distributed/base/BaseDistributed.py`
  (`BaseDistributedAlgorithm`, `BaseDistributedOptimizer`), and
* `openks/models/pytorch/kg_modules/gcn.py` (`UnsupervisedGCN`).

The repository is Python 3 code (`gcn.py` uses Python-3-only keyword
annotations such as `layernorm: bool = False`), so the embedding follows
Python 3 semantics.  In particular `a / b` on two ints is *true division*
and returns a `float`; using a `float` as a list-slice bound raises
`TypeError`.  Exceptions are modelled with `Except`; a raised exception is
an `Except.error` carrying a `PyErr` value.
-/

namespace OpenKS

/-- Python exception values that the embedded fragment can raise.
`typeError` and `attributeError` carry the source message (for
`attributeError` just the name of the missing attribute; the quotes and
surrounding words of CPython's message are omitted). -/
inductive PyErr where
  | typeError (msg : String)
  | attributeError (missing : String)
  | zeroDivisionError
  | indexError
  | notImplementedError
  deriving DecidableEq

/-- A Python number: an `int` or a `float`.  Python 3 true division of two
ints yields a `float`.  We carry the exact rational value of a float; for
the code embedded here no float value is ever consumed (a float that
reaches a slice bound raises `TypeError` whatever its value), so the
difference between rationals and IEEE doubles is unobservable. -/
inductive PyNum where
  | int (n : Int)
  | float (q : ℚ)
  deriving DecidableEq

/-- Python `+` on numbers: `int + int` is an `int`, any operand being a
`float` makes the result a `float`. -/
def PyNum.add : PyNum → PyNum → PyNum
  | .int a, .int b => .int (a + b)
  | .int a, .float b => .float ((a : ℚ) + b)
  | .float a, .int b => .float (a + (b : ℚ))
  | .float a, .float b => .float (a + b)

/-- Python 3 `a / b` on two nonnegative ints (the only uses in the source):
true division, always returning a `float`. -/
def truediv (a b : Nat) : PyNum := .float ((a : ℚ) / (b : ℚ))

/-- Python list slicing `xs[lo:hi]` for integer bounds: negative bounds
count from the end, then both are clamped to `[0, len xs]`. -/
def pySliceInt {α : Type} (xs : List α) (lo hi : Int) : List α :=
  let n : Int := xs.length
  let lo2 : Int := if lo < 0 then max (n + lo) 0 else min lo n
  let hi2 : Int := if hi < 0 then max (n + hi) 0 else min hi n
  (xs.drop lo2.toNat).take (hi2 - lo2).toNat

/-- The message of the `TypeError` CPython raises when a slice bound is a
`float` (quotes omitted). -/
def sliceTypeErrorMsg : String :=
  "slice indices must be integers or None or have an __index__ method"

/-- Python list slicing `xs[lo:hi]` where the bounds are arbitrary numbers:
a `float` bound raises `TypeError`. -/
def pySlice {α : Type} (xs : List α) : PyNum → PyNum → Except PyErr (List α)
  | .int lo, .int hi => .ok (pySliceInt xs lo hi)
  | _, _ => .error (.typeError sliceTypeErrorMsg)

/-- The loop `for i in range(remainder): blocks[i] += 1` of `split_files`:
adds Python `1` to the first `r` entries of `blocks`. -/
def addOneToFirst : Nat → List PyNum → List PyNum
  | _, [] => []
  | 0, bs => bs
  | r + 1, b :: bs => b.add (.int 1) :: addOneToFirst r bs

/-- The slicing loop of `split_files`:
`for i in range(trainers): trainer_files[i] = files[begin:begin+blocks[i]]; begin += blocks[i]`.
Returns the list of all workers' slices, or the first exception raised. -/
def sliceLoop {α : Type} (files : List α) :
    List PyNum → PyNum → Except PyErr (List (List α))
  | [], _ => .ok []
  | b :: bs, begin_ =>
    match pySlice files begin_ (begin_.add b) with
    | .error e => .error e
    | .ok seg =>
      match sliceLoop files bs (begin_.add b) with
      | .error e => .error e
      | .ok rest => .ok (seg :: rest)

/-- The message of the `TypeError` raised by `split_files`' argument check. -/
def filesTypeErrorMsg : String :=
  "files should be a list of file need to be read."

/-- The `files` argument of `split_files` as a Python value: a list, a
tuple (a sequence that is not a list), or some other non-sequence object. -/
inductive PyFilesArg (α : Type) where
  | list (xs : List α)
  | tuple (xs : List α)
  | other
  deriving DecidableEq

/-- `isinstance(files, list)`. -/
def PyFilesArg.isList {α : Type} : PyFilesArg α → Bool
  | .list _ => true
  | _ => false

/-- `BaseDistributedAlgorithm.split_files`, embedded with Python 3
semantics.  `trainer_id` and `trainers` stand for the values returned by
`self.worker_index()` and `self.worker_num()`.  Following the source:
the `isinstance(files, list)` check, `remainder = len(files) % trainers`
(raising `ZeroDivisionError` when `trainers == 0`),
`blocksize = len(files) / trainers` (true division: a float),
`blocks = [blocksize] * trainers` with the first `remainder` entries
incremented, the slicing loop, and finally `trainer_files[trainer_id]`. -/
def split_files {α : Type} (arg : PyFilesArg α) (trainer_id trainers : Nat) :
    Except PyErr (List α) :=
  match arg with
  | .list files =>
    if trainers = 0 then .error .zeroDivisionError
    else
      let remainder := files.length % trainers
      let blocksize := truediv files.length trainers
      let blocks := addOneToFirst remainder (List.replicate trainers blocksize)
      match sliceLoop files blocks (.int 0) with
      | .error e => .error e
      | .ok trainer_files =>
        match trainer_files.get? trainer_id with
        | some fs => .ok fs
        | none => .error .indexError
  | _ => .error (.typeError filesTypeErrorMsg)

/-- The partitioning that `split_files`' own docstring examples and the
spec describe.  Identical to `split_files` except that the block size is
computed with integer floor division (`len(files) // trainers`) instead of
true division, so the slice bounds are ints and the slices succeed. -/
def split_files_spec {α : Type} (arg : PyFilesArg α) (trainer_id trainers : Nat) :
    Except PyErr (List α) :=
  match arg with
  | .list files =>
    if trainers = 0 then .error .zeroDivisionError
    else
      let remainder := files.length % trainers
      let blocksize : PyNum := .int (files.length / trainers)
      let blocks := addOneToFirst remainder (List.replicate trainers blocksize)
      match sliceLoop files blocks (.int 0) with
      | .error e => .error e
      | .ok trainer_files =>
        match trainer_files.get? trainer_id with
        | some fs => .ok fs
        | none => .error .indexError
  | _ => .error (.typeError filesTypeErrorMsg)

/-- The message of the `TypeError` raised by `init`'s role-maker check. -/
def roleMakerTypeErrorMsg : String :=
  "role_maker must be an instance of RoleMakerBase"

/-- The message of the `TypeError` raised by
`BaseDistributedOptimizer.__init__`'s optimizer check. -/
def optimizerTypeErrorMsg : String :=
  "optimizer must be an instance of Optimizer"

/-! ### The role-discovery collaborator and `BaseDistributedAlgorithm` state

`RoleMaker.py` (the `RoleMakerBase` class) is an external collaborator of
`BaseDistributed.py`; only its interface is used there.  A role maker is
therefore embedded as a record of the values and outcomes its methods
produce: query methods return fixed values (the spec states role data is
immutable once assigned), `generate_role` may succeed or raise, and the
collective methods `all_reduce_worker` / `barrier_worker` are opaque
functions into an abstract result type `R`, so that "forwarded verbatim"
is expressible. -/

/-- Interface record for a `RoleMakerBase` instance. -/
structure RoleMaker (I O R : Type) where
  is_first_worker : Bool
  worker_index : Int
  worker_num : Int
  is_worker : Bool
  get_trainer_endpoints : List String
  get_pserver_endpoints : List String
  server_index : Int
  is_server : Bool
  generate_role : Except PyErr Unit
  all_reduce_worker : I → O → R
  barrier_worker : R

/-- A value passed as (or stored in) `role_maker`: Python `None`, an
instance of `RoleMakerBase`, or some other object.  Other objects carry
their Python truthiness; they are not role makers, so they lack the
`generate_role` and query attributes. -/
inductive RoleMakerArg (I O R : Type) where
  | pyNone
  | roleMaker (rm : RoleMaker I O R)
  | other (truthy : Bool)

/-- Python truthiness of a `role_maker` value: `None` is falsy, ordinary
class instances (`RoleMakerBase` included) are truthy. -/
def RoleMakerArg.truthy {I O R : Type} : RoleMakerArg I O R → Bool
  | .pyNone => false
  | .roleMaker _ => true
  | .other t => t

/-- `isinstance(role_maker, RoleMakerBase)`. -/
def RoleMakerArg.isRoleMakerBase {I O R : Type} : RoleMakerArg I O R → Bool
  | .roleMaker _ => true
  | _ => false

/-- The mutable state of a `BaseDistributedAlgorithm` object.  `mode` is
the opaque mode tag given to `__init__`.  `executor` models the
`_executor` field as a generation counter: `0` is the initial `None`, and
every `init` call binds a fresh `Executor` object, increasing the
counter. -/
structure BaseDistributedAlgorithm (I O R : Type) where
  is_initialized : Bool
  mode : Nat
  optimizer : Option Unit
  role_maker : RoleMakerArg I O R
  executor : Nat

namespace BaseDistributedAlgorithm

/-- `BaseDistributedAlgorithm.__init__(self, mode)`. -/
def new {I O R : Type} (mode : Nat) : BaseDistributedAlgorithm I O R :=
  { is_initialized := false
    mode := mode
    optimizer := none
    role_maker := .pyNone
    executor := 0 }

/-- `self._role_maker.is_first_worker()`: an `AttributeError` unless a
`RoleMakerBase` instance has been stored. -/
def is_first_worker {I O R : Type} (σ : BaseDistributedAlgorithm I O R) :
    Except PyErr Bool :=
  match σ.role_maker with
  | .roleMaker rm => .ok rm.is_first_worker
  | _ => .error (.attributeError ("is_first_worker"))

/-- `self._role_maker.worker_index()`. -/
def worker_index {I O R : Type} (σ : BaseDistributedAlgorithm I O R) :
    Except PyErr Int :=
  match σ.role_maker with
  | .roleMaker rm => .ok rm.worker_index
  | _ => .error (.attributeError ("worker_index"))

/-- `self._role_maker.worker_num()`. -/
def worker_num {I O R : Type} (σ : BaseDistributedAlgorithm I O R) :
    Except PyErr Int :=
  match σ.role_maker with
  | .roleMaker rm => .ok rm.worker_num
  | _ => .error (.attributeError ("worker_num"))

/-- `self._role_maker.is_worker()`. -/
def is_worker {I O R : Type} (σ : BaseDistributedAlgorithm I O R) :
    Except PyErr Bool :=
  match σ.role_maker with
  | .roleMaker rm => .ok rm.is_worker
  | _ => .error (.attributeError ("is_worker"))

/-- `worker_endpoints(to_string)`: either the joined string or the list
returned by `self._role_maker.get_trainer_endpoints()`. -/
def worker_endpoints {I O R : Type} (σ : BaseDistributedAlgorithm I O R)
    (to_string : Bool) : Except PyErr (String ⊕ List String) :=
  match σ.role_maker with
  | .roleMaker rm =>
    if to_string then .ok (.inl (String.intercalate (",") rm.get_trainer_endpoints))
    else .ok (.inr rm.get_trainer_endpoints)
  | _ => .error (.attributeError ("get_trainer_endpoints"))

/-- `server_num(self) = len(self._role_maker.get_pserver_endpoints())`. -/
def server_num {I O R : Type} (σ : BaseDistributedAlgorithm I O R) :
    Except PyErr Nat :=
  match σ.role_maker with
  | .roleMaker rm => .ok rm.get_pserver_endpoints.length
  | _ => .error (.attributeError ("get_pserver_endpoints"))

/-- `self._role_maker.server_index()`. -/
def server_index {I O R : Type} (σ : BaseDistributedAlgorithm I O R) :
    Except PyErr Int :=
  match σ.role_maker with
  | .roleMaker rm => .ok rm.server_index
  | _ => .error (.attributeError ("server_index"))

/-- `server_endpoints(to_string)`. -/
def server_endpoints {I O R : Type} (σ : BaseDistributedAlgorithm I O R)
    (to_string : Bool) : Except PyErr (String ⊕ List String) :=
  match σ.role_maker with
  | .roleMaker rm =>
    if to_string then .ok (.inl (String.intercalate (",") rm.get_pserver_endpoints))
    else .ok (.inr rm.get_pserver_endpoints)
  | _ => .error (.attributeError ("get_pserver_endpoints"))

/-- `self._role_maker.is_server()`. -/
def is_server {I O R : Type} (σ : BaseDistributedAlgorithm I O R) :
    Except PyErr Bool :=
  match σ.role_maker with
  | .roleMaker rm => .ok rm.is_server
  | _ => .error (.attributeError ("is_server"))

/-- `BaseDistributedAlgorithm.init(self, role_maker=None)`, step by step:
`self._executor = Executor(fluid.CPUPlace())` (a fresh executor, bound
unconditionally first); then
`if role_maker and not isinstance(role_maker, RoleMakerBase): raise TypeError`;
then `self._role_maker = role_maker`;
then `self._role_maker.generate_role()` (an `AttributeError` when the
stored value is not a role maker); and only on success
`self._is_initialized = True`.  Returns the outcome together with the
state the object is left in. -/
def init {I O R : Type} (σ : BaseDistributedAlgorithm I O R)
    (role_maker : RoleMakerArg I O R) :
    Except PyErr Unit × BaseDistributedAlgorithm I O R :=
  let σ1 := { σ with executor := σ.executor + 1 }
  if role_maker.truthy && !role_maker.isRoleMakerBase then
    (.error (.typeError roleMakerTypeErrorMsg), σ1)
  else
    let σ2 := { σ1 with role_maker := role_maker }
    match role_maker with
    | .roleMaker rm =>
      match rm.generate_role with
      | .ok _ => (.ok (), { σ2 with is_initialized := true })
      | .error e => (.error e, σ2)
    | _ => (.error (.attributeError ("generate_role")), σ2)

/-- `all_reduce_worker(self, input, output) = self._role_maker.all_reduce_worker(input, output)`:
a plain forward of both arguments to the stored collaborator. -/
def all_reduce_worker {I O R : Type} (σ : BaseDistributedAlgorithm I O R)
    (input : I) (output : O) : Except PyErr R :=
  match σ.role_maker with
  | .roleMaker rm => .ok (rm.all_reduce_worker input output)
  | _ => .error (.attributeError ("all_reduce_worker"))

/-- `barrier_worker(self) = self._role_maker.barrier_worker()`. -/
def barrier_worker {I O R : Type} (σ : BaseDistributedAlgorithm I O R) :
    Except PyErr R :=
  match σ.role_maker with
  | .roleMaker rm => .ok rm.barrier_worker
  | _ => .error (.attributeError ("barrier_worker"))

end BaseDistributedAlgorithm

/-! ### `BaseDistributedOptimizer` -/

/-- The shape of an object passed as the `optimizer` argument, seen through
the two `isinstance` checks of the source: whether it is an instance of
the framework `Optimizer` base class (`SGD.__bases__`, i.e. supports the
gradient-descent backward pass) and whether it is an
`OptimizerWithMixedPrecision` (supports mixed-precision wrapping). -/
structure PyOptimizer where
  isOptimizer : Bool
  isMixedPrecision : Bool
  deriving DecidableEq

/-- A constructed `BaseDistributedOptimizer`: stores the wrapped optimizer
and the opaque strategy. -/
structure BaseDistributedOptimizer (S : Type) where
  optimizer : PyOptimizer
  strategy : Option S

/-- `BaseDistributedOptimizer.__init__(self, optimizer, strategy=None)`:
`TypeError` unless the optimizer passes one of the two `isinstance`
checks; otherwise the optimizer and strategy are stored unchanged. -/
def BaseDistributedOptimizer.make {S : Type} (optimizer : PyOptimizer)
    (strategy : Option S) : Except PyErr (BaseDistributedOptimizer S) :=
  if !optimizer.isOptimizer && !optimizer.isMixedPrecision then
    .error (.typeError optimizerTypeErrorMsg)
  else
    .ok { optimizer := optimizer, strategy := strategy }

/-! ### `UnsupervisedGCN` (gcn.py)

The stacked `GCNLayer` modules and the dgl pooling modules
(`AvgPooling`, `Set2Set`) as well as `nn.Linear` and `nn.LayerNorm` are
external collaborators built from framework primitives; they are embedded
as opaque functions over an abstract graph type `G` and feature type `X`.
The constructor's choice of readout and the `isinstance(self.readout,
Set2Set)` test in `forward` are what the source itself contributes. -/

/-- The externally supplied modules an `UnsupervisedGCN` is wired from:
the `num_layer` stacked `GCNLayer` modules, the two dgl pooling modules,
the `nn.Linear(2*hidden_size, hidden_size)` projection and the
`nn.LayerNorm`. -/
structure UGCNParts (G X : Type) where
  layers : List (G → X → X)
  avgPooling : G → X → X
  set2set : G → X → X
  linear : X → X
  layerNorm : X → X

/-- A constructed `UnsupervisedGCN` object.  `readout_is_set2set` records
what `isinstance(self.readout, Set2Set)` answers in `forward`.  In the
non-set2set branches the source never defines `self.linear`; the field is
also never read there, so it is filled with `id`. -/
structure UnsupervisedGCN (G X : Type) where
  layers : List (G → X → X)
  readout : G → X → X
  readout_is_set2set : Bool
  linear : X → X
  layernorm : Bool
  ln : X → X

/-- `UnsupervisedGCN.__init__`: selects the readout module from the
`readout` string — `AvgPooling()` for `"avg"`, `Set2Set(...)` plus the
linear projection for `"set2set"`, the identity lambda `lambda _, x: x`
for `"root"` — and raises `NotImplementedError` for any other string.
`layernorm` selects the optional `nn.LayerNorm`. -/
def UnsupervisedGCN.make {G X : Type} (parts : UGCNParts G X)
    (readout : String) (layernorm : Bool) :
    Except PyErr (UnsupervisedGCN G X) :=
  if readout = "avg" then
    .ok { layers := parts.layers, readout := parts.avgPooling
          readout_is_set2set := false, linear := id
          layernorm := layernorm, ln := parts.layerNorm }
  else if readout = "set2set" then
    .ok { layers := parts.layers, readout := parts.set2set
          readout_is_set2set := true, linear := parts.linear
          layernorm := layernorm, ln := parts.layerNorm }
  else if readout = "root" then
    .ok { layers := parts.layers, readout := fun _ x => x
          readout_is_set2set := false, linear := id
          layernorm := layernorm, ln := parts.layerNorm }
  else
    .error .notImplementedError

/-- `UnsupervisedGCN.forward(self, g, feats, efeats=None)`:
`for layer in self.layers: feats = layer(g, feats)`; then
`feats = self.readout(g, feats)`; then the linear projection when the
readout is a `Set2Set`; then the optional layer norm. -/
def UnsupervisedGCN.forward {G X : Type} (m : UnsupervisedGCN G X)
    (g : G) (feats : X) : X :=
  let feats1 := m.layers.foldl (fun f layer => layer g f) feats
  let feats2 := m.readout g feats1
  let feats3 := if m.readout_is_set2set then m.linear feats2 else feats2
  if m.layernorm then m.ln feats3 else feats3

/-! ## Theorems -/

/-- Helper: on any actual list and any worker count `w ≥ 1`, `split_files`
raises the float-slice-bound `TypeError`: `len(files) / trainers` is
Python 3 true division, so every entry of `blocks` is a float, and already
the first slice `files[begin:begin + blocks[0]]` raises. -/
theorem split_files_list_slice_error {α : Type} (files : List α) (tid w : Nat)
    (hw : w ≠ 0) :
    split_files (PyFilesArg.list files) tid w
      = .error (.typeError sliceTypeErrorMsg) := by
  obtain ⟨k, rfl⟩ : ∃ k, w = k + 1 :=
    ⟨w - 1, (Nat.succ_pred_eq_of_pos (Nat.pos_of_ne_zero hw)).symm⟩
  cases h : files.length % (k + 1) with
  | zero =>
    simp [split_files, List.replicate_succ, h, addOneToFirst, sliceLoop, truediv,
      PyNum.add, pySlice]
  | succ r =>
    simp [split_files, List.replicate_succ, h, addOneToFirst, sliceLoop, truediv,
      PyNum.add, pySlice]

/-- Helper: the two `TypeError` messages of `split_files` are distinct. -/
theorem sliceMsg_ne_filesMsg : sliceTypeErrorMsg ≠ filesTypeErrorMsg := by decide

/-- Claim C1.  The claim states that `split_files` partitions the file list
contiguously in worker order with sizes `floor(n/w)` / `floor(n/w)+1`.  The
code does not: at the example of its own docstring
(`files = [a,b,c,d,e]`, 2 workers, worker 0) it raises a `TypeError`,
because `len(files) / trainers` is Python 3 true division and the
resulting float is used as a slice bound.  The partitioning the docstring
and the spec describe (`split_files_spec`, floor division) does give worker
0 `[a,b,c]`, worker 1 `[d,e]`, and an empty partition to worker 2 of the
second docstring example — so the claim describes the intent and the code
is the slip (a code bug). -/
theorem C1_split_files_division_bug :
    split_files (PyFilesArg.list ["a", "b", "c", "d", "e"]) 0 2
        = .error (.typeError sliceTypeErrorMsg)
  ∧ split_files_spec (PyFilesArg.list ["a", "b", "c", "d", "e"]) 0 2
        = .ok ["a", "b", "c"]
  ∧ split_files_spec (PyFilesArg.list ["a", "b", "c", "d", "e"]) 1 2
        = .ok ["d", "e"]
  ∧ split_files_spec (PyFilesArg.list ["a", "b"]) 2 3 = .ok [] :=
  ⟨rfl, rfl, rfl, rfl⟩

/-- Claim C2, counterexample.  The claim says `split_files` raises
`TypeError` iff `files` is not a sequence, so a tuple (a sequence) should
not raise — but the source checks `isinstance(files, list)`, and a
one-element tuple raises the argument-check `TypeError`. -/
theorem C2_counterexample :
    split_files (PyFilesArg.tuple ["a"]) 0 1
      = .error (.typeError filesTypeErrorMsg) := rfl

/-- Claim C2, amended: `split_files` raises the argument-validation
`TypeError` (message `filesTypeErrorMsg`) iff `files` is not a `list` —
non-list sequences such as tuples are rejected too.  (List arguments never
produce this particular error; with `w ≥ 1` they fail later with the
distinct float-slice `TypeError` of C1, and with `w = 0` with
`ZeroDivisionError`.) -/
theorem C2_split_files_list_check {α : Type} (arg : PyFilesArg α) (tid w : Nat) :
    split_files arg tid w = .error (.typeError filesTypeErrorMsg)
      ↔ arg.isList = false := by
  cases arg with
  | list xs =>
    simp only [PyFilesArg.isList, Bool.true_eq_false, iff_false]
    intro h
    by_cases hw : w = 0
    · subst hw; simp [split_files] at h
    · rw [split_files_list_slice_error xs tid w hw] at h
      injection h with h1
      injection h1 with h2
      exact sliceMsg_ne_filesMsg h2
  | tuple xs => simp [split_files, PyFilesArg.isList]
  | other => simp [split_files, PyFilesArg.isList]

/-- Claim C3: while no role maker has been assigned (`_role_maker` is still
the `None` set by `__init__` — in particular on every freshly constructed
instance), every role accessor and both collective operations fail, each
with the `AttributeError` on `None` that the spec names
UninitializedRoleError. -/
theorem C3_accessors_fail_before_init {I O R : Type}
    (σ : BaseDistributedAlgorithm I O R) (ts : Bool) (input : I) (output : O)
    (h : σ.role_maker = .pyNone) :
    σ.is_first_worker = .error (.attributeError ("is_first_worker"))
  ∧ σ.worker_index = .error (.attributeError ("worker_index"))
  ∧ σ.worker_num = .error (.attributeError ("worker_num"))
  ∧ σ.is_worker = .error (.attributeError ("is_worker"))
  ∧ σ.worker_endpoints ts = .error (.attributeError ("get_trainer_endpoints"))
  ∧ σ.server_num = .error (.attributeError ("get_pserver_endpoints"))
  ∧ σ.server_index = .error (.attributeError ("server_index"))
  ∧ σ.server_endpoints ts = .error (.attributeError ("get_pserver_endpoints"))
  ∧ σ.is_server = .error (.attributeError ("is_server"))
  ∧ σ.all_reduce_worker input output
        = .error (.attributeError ("all_reduce_worker"))
  ∧ σ.barrier_worker = .error (.attributeError ("barrier_worker")) := by
  refine ⟨?_, ?_, ?_, ?_, ?_, ?_, ?_, ?_, ?_, ?_, ?_⟩ <;>
    simp [BaseDistributedAlgorithm.is_first_worker,
      BaseDistributedAlgorithm.worker_index, BaseDistributedAlgorithm.worker_num,
      BaseDistributedAlgorithm.is_worker, BaseDistributedAlgorithm.worker_endpoints,
      BaseDistributedAlgorithm.server_num, BaseDistributedAlgorithm.server_index,
      BaseDistributedAlgorithm.server_endpoints, BaseDistributedAlgorithm.is_server,
      BaseDistributedAlgorithm.all_reduce_worker,
      BaseDistributedAlgorithm.barrier_worker, h]

/-- Claim C3, witness: a freshly constructed instance has `role_maker =
None` and its first accessor indeed fails. -/
theorem C3_witness :
    (BaseDistributedAlgorithm.new (I := Unit) (O := Unit) (R := Unit) 0).is_first_worker
        = .error (.attributeError ("is_first_worker"))
  ∧ (BaseDistributedAlgorithm.new (I := Unit) (O := Unit) (R := Unit) 0).barrier_worker
        = .error (.attributeError ("barrier_worker")) := by
  have h := C3_accessors_fail_before_init
    (BaseDistributedAlgorithm.new (I := Unit) (O := Unit) (R := Unit) 0)
    true () () rfl
  exact ⟨h.1, h.2.2.2.2.2.2.2.2.2.2⟩

/-- Claim C4, counterexample.  The claim says `init(roleSource)` fails with
the type-mismatch error for every `roleSource` that is not a
`RoleMakerBase` instance — but `None` is not one, and `init(None)` skips
the truthiness-guarded `isinstance` check and fails with an
`AttributeError` from `None.generate_role()` instead of a `TypeError`. -/
theorem C4_counterexample :
    ((BaseDistributedAlgorithm.new (I := Unit) (O := Unit) (R := Unit) 0).init
        RoleMakerArg.pyNone).1
      = .error (.attributeError ("generate_role")) := rfl

/-- Claim C4, amended: the `TypeError` is raised exactly for *truthy*
non-`RoleMakerBase` role sources (falsy ones skip the check, see C9); and
for every `RoleMakerBase` instance `init` runs `generate_role`, and when
role discovery succeeds it stores the role maker, binds a fresh execution
context and sets the initialization flag. -/
theorem C4_init_validation {I O R : Type} (σ : BaseDistributedAlgorithm I O R)
    (arg : RoleMakerArg I O R) :
    (arg.truthy = true → arg.isRoleMakerBase = false →
        (σ.init arg).1 = .error (.typeError roleMakerTypeErrorMsg))
  ∧ (∀ rm : RoleMaker I O R, arg = .roleMaker rm → rm.generate_role = .ok () →
        (σ.init arg).1 = .ok ()
      ∧ (σ.init arg).2.is_initialized = true
      ∧ (σ.init arg).2.role_maker = arg
      ∧ (σ.init arg).2.executor = σ.executor + 1) := by
  constructor
  · intro ht hb
    cases arg <;>
      simp_all [BaseDistributedAlgorithm.init, RoleMakerArg.truthy,
        RoleMakerArg.isRoleMakerBase]
  · rintro rm rfl hg
    simp [BaseDistributedAlgorithm.init, RoleMakerArg.truthy,
      RoleMakerArg.isRoleMakerBase, hg]

/-- A concrete role maker whose role discovery succeeds, used by the
witnesses. -/
def rm0 : RoleMaker Unit Unit Unit :=
  { is_first_worker := true
    worker_index := 0
    worker_num := 2
    is_worker := true
    get_trainer_endpoints := ["127.0.0.1:6170"]
    get_pserver_endpoints := []
    server_index := 0
    is_server := false
    generate_role := .ok ()
    all_reduce_worker := fun _ _ => ()
    barrier_worker := () }

/-- Claim C4, witness: `init` on a valid role maker succeeds and leaves the
instance initialized. -/
theorem C4_witness :
    ((BaseDistributedAlgorithm.new (I := Unit) (O := Unit) (R := Unit) 0).init
        (.roleMaker rm0)).1 = .ok ()
  ∧ ((BaseDistributedAlgorithm.new (I := Unit) (O := Unit) (R := Unit) 0).init
        (.roleMaker rm0)).2.is_initialized = true := by
  have h := C4_init_validation (BaseDistributedAlgorithm.new 0) (.roleMaker rm0)
  exact ⟨(h.2 rm0 rfl rfl).1, (h.2 rm0 rfl rfl).2.1⟩

/-- Claim C5: constructing a `BaseDistributedOptimizer` fails with
`TypeError` when the supplied object is in neither capability class
(neither a framework `Optimizer` nor an `OptimizerWithMixedPrecision`),
and with an object in the capability set it succeeds and stores the
optimizer and the strategy unchanged. -/
theorem C5_optimizer_capability_check {S : Type} (opt : PyOptimizer)
    (s : Option S) :
    (opt.isOptimizer = false → opt.isMixedPrecision = false →
        BaseDistributedOptimizer.make opt s
          = .error (.typeError optimizerTypeErrorMsg))
  ∧ (opt.isOptimizer = true ∨ opt.isMixedPrecision = true →
        BaseDistributedOptimizer.make opt s
          = .ok { optimizer := opt, strategy := s }) := by
  constructor
  · intro h1 h2; simp [BaseDistributedOptimizer.make, h1, h2]
  · intro h; rcases h with h | h <;> simp [BaseDistributedOptimizer.make, h]

/-- Claim C5, witness: both branches at concrete optimizers. -/
theorem C5_witness :
    BaseDistributedOptimizer.make (S := Unit) ⟨false, false⟩ none
      = .error (.typeError optimizerTypeErrorMsg)
  ∧ BaseDistributedOptimizer.make (S := Unit) ⟨true, false⟩ none
      = .ok { optimizer := ⟨true, false⟩, strategy := none } :=
  ⟨(C5_optimizer_capability_check ⟨false, false⟩ none).1 rfl rfl,
   (C5_optimizer_capability_check ⟨true, false⟩ none).2 (Or.inl rfl)⟩

/-- Claim C6: `all_reduce_worker` and `barrier_worker` add no semantics of
their own.  When a role maker has been assigned, both arguments of
`all_reduce_worker` are forwarded verbatim to the collaborator and its
result is returned unchanged (likewise for `barrier_worker`); while no
role has been assigned, the call fails instead of being forwarded. -/
theorem C6_collective_forwarding {I O R : Type}
    (σ : BaseDistributedAlgorithm I O R) (input : I) (output : O) :
    (∀ rm : RoleMaker I O R, σ.role_maker = .roleMaker rm →
        σ.all_reduce_worker input output = .ok (rm.all_reduce_worker input output)
      ∧ σ.barrier_worker = .ok rm.barrier_worker)
  ∧ (σ.role_maker = .pyNone →
        σ.all_reduce_worker input output
            = .error (.attributeError ("all_reduce_worker"))
      ∧ σ.barrier_worker = .error (.attributeError ("barrier_worker"))) := by
  constructor
  · intro rm h
    constructor <;>
      simp [BaseDistributedAlgorithm.all_reduce_worker,
        BaseDistributedAlgorithm.barrier_worker, h]
  · intro h
    constructor <;>
      simp [BaseDistributedAlgorithm.all_reduce_worker,
        BaseDistributedAlgorithm.barrier_worker, h]

/-- Claim C6, witness: after a successful `init` the call is forwarded; on
a fresh instance it fails. -/
theorem C6_witness :
    (((BaseDistributedAlgorithm.new (I := Unit) (O := Unit) (R := Unit) 0).init
        (.roleMaker rm0)).2.all_reduce_worker () () = .ok ())
  ∧ ((BaseDistributedAlgorithm.new (I := Unit) (O := Unit) (R := Unit) 0).all_reduce_worker () ()
        = .error (.attributeError ("all_reduce_worker"))) := by
  refine ⟨?_, ?_⟩
  · exact ((C6_collective_forwarding _ () ()).1 rm0 rfl).1
  · exact ((C6_collective_forwarding _ () ()).2 rfl).1

/-- Claim C7: constructed with `readout = "root"` and `layernorm` off, the
readout of an `UnsupervisedGCN` is the identity on per-node features, and
`forward` returns exactly the output of the stacked layers, unpooled. -/
theorem C7_root_readout_identity {G X : Type} (parts : UGCNParts G X)
    (m : UnsupervisedGCN G X)
    (h : UnsupervisedGCN.make parts ("root") false = .ok m) (g : G) (x : X) :
    m.readout g x = x
  ∧ m.forward g x = parts.layers.foldl (fun f layer => layer g f) x := by
  have h0 : UnsupervisedGCN.make parts ("root") false
      = Except.ok { layers := parts.layers, readout := fun _ y => y
                    readout_is_set2set := false, linear := id
                    layernorm := false, ln := parts.layerNorm } := rfl
  rw [h0] at h
  injection h with hm
  subst hm
  exact ⟨rfl, rfl⟩

/-- Concrete collaborator modules for the `UnsupervisedGCN` witnesses. -/
def parts0 : UGCNParts Unit Nat :=
  { layers := [fun _ x => x + 1, fun _ x => x * 2]
    avgPooling := fun _ x => x + 100
    set2set := fun _ x => x + 200
    linear := fun x => x + 300
    layerNorm := fun x => x + 400 }

/-- The model `UnsupervisedGCN.make parts0 "root" false` constructs. -/
def ugcnRoot0 : UnsupervisedGCN Unit Nat :=
  { layers := parts0.layers
    readout := fun _ y => y
    readout_is_set2set := false
    linear := id
    layernorm := false
    ln := parts0.layerNorm }

/-- Claim C7, witness: at concrete layers (`+1` then `*2`) the forward pass
on input `5` returns the raw stacked-layer output `12`, untouched by
readout, projection or normalization. -/
theorem C7_witness :
    ugcnRoot0.readout () 5 = 5 ∧ ugcnRoot0.forward () 5 = 12 := by
  have h := C7_root_readout_identity parts0 ugcnRoot0 rfl () 5
  exact ⟨h.1, by rw [h.2]; rfl⟩

/-- Claim C8: constructing an `UnsupervisedGCN` with a readout mode outside
the recognized set raises `NotImplementedError` (the spec's
UnsupportedReadoutError) directly to the caller. -/
theorem C8_unsupported_readout {G X : Type} (parts : UGCNParts G X) (r : String)
    (layernorm : Bool) (h1 : r ≠ "avg") (h2 : r ≠ "set2set") (h3 : r ≠ "root") :
    UnsupervisedGCN.make parts r layernorm = .error .notImplementedError := by
  simp [UnsupervisedGCN.make, h1, h2, h3]

/-- Claim C8, witness: the readout string `"max"` is rejected. -/
theorem C8_witness :
    UnsupervisedGCN.make parts0 ("max") true = .error .notImplementedError :=
  C8_unsupported_readout parts0 ("max") true (by decide) (by decide) (by decide)

/-- Claim C9: for every falsy `role_maker` (the default `None` included),
`init` on a fresh instance skips the `isinstance` check — it raises an
`AttributeError` from `generate_role`, never the type-mismatch
`TypeError` — the falsy value is nevertheless stored in `_role_maker`, and
the instance is left uninitialized. -/
theorem C9_falsy_skips_type_check {I O R : Type} (m : Nat)
    (arg : RoleMakerArg I O R) (h : arg.truthy = false) :
    (∃ a, ((BaseDistributedAlgorithm.new (I := I) (O := O) (R := R) m).init arg).1
        = .error (.attributeError a))
  ∧ ((BaseDistributedAlgorithm.new (I := I) (O := O) (R := R) m).init arg).2.role_maker
        = arg
  ∧ ((BaseDistributedAlgorithm.new (I := I) (O := O) (R := R) m).init arg).2.is_initialized
        = false := by
  cases arg with
  | pyNone => exact ⟨⟨"generate_role", rfl⟩, rfl, rfl⟩
  | roleMaker rm => simp [RoleMakerArg.truthy] at h
  | other t =>
    cases t with
    | false => exact ⟨⟨"generate_role", rfl⟩, rfl, rfl⟩
    | true => simp [RoleMakerArg.truthy] at h

/-- Claim C9, witness: `init` with the default `None` on a fresh instance. -/
theorem C9_witness :
    (∃ a, ((BaseDistributedAlgorithm.new (I := Unit) (O := Unit) (R := Unit) 0).init
        RoleMakerArg.pyNone).1 = .error (.attributeError a))
  ∧ ((BaseDistributedAlgorithm.new (I := Unit) (O := Unit) (R := Unit) 0).init
        RoleMakerArg.pyNone).2.is_initialized = false := by
  have h := C9_falsy_skips_type_check (I := Unit) (O := Unit) (R := Unit) 0
    RoleMakerArg.pyNone rfl
  exact ⟨h.1, h.2.2⟩

/-- Claim C10: `init` is not atomic on failure.  Whenever `init` raises on
a not-yet-initialized instance, the initialization flag is still `false`
afterwards (it is only set after role discovery succeeds), but
`_executor` has already been rebound to a fresh execution context —
distinct from the previous one — before the validation check ran. -/
theorem C10_init_partial_state_on_failure {I O R : Type}
    (σ : BaseDistributedAlgorithm I O R) (arg : RoleMakerArg I O R)
    (hflag : σ.is_initialized = false) (e : PyErr)
    (herr : (σ.init arg).1 = .error e) :
    (σ.init arg).2.is_initialized = false
  ∧ (σ.init arg).2.executor = σ.executor + 1
  ∧ (σ.init arg).2.executor ≠ σ.executor := by
  cases arg with
  | pyNone => exact ⟨hflag, rfl, Nat.succ_ne_self _⟩
  | other t => cases t <;> exact ⟨hflag, rfl, Nat.succ_ne_self _⟩
  | roleMaker rm =>
    cases hg : rm.generate_role with
    | ok u =>
      exfalso
      simp [BaseDistributedAlgorithm.init, RoleMakerArg.truthy,
        RoleMakerArg.isRoleMakerBase, hg] at herr
    | error e2 =>
      refine ⟨?_, ?_, ?_⟩ <;>
        simp [BaseDistributedAlgorithm.init, RoleMakerArg.truthy,
          RoleMakerArg.isRoleMakerBase, hg, hflag]

/-- Claim C10, witness: a truthy non-role-maker argument makes `init` raise
the `TypeError`, and the failed call has still rebound the executor. -/
theorem C10_witness :
    ((BaseDistributedAlgorithm.new (I := Unit) (O := Unit) (R := Unit) 0).init
        (RoleMakerArg.other true)).2.is_initialized = false
  ∧ ((BaseDistributedAlgorithm.new (I := Unit) (O := Unit) (R := Unit) 0).init
        (RoleMakerArg.other true)).2.executor = 1 := by
  have h := C10_init_partial_state_on_failure (I := Unit) (O := Unit) (R := Unit)
    (BaseDistributedAlgorithm.new 0) (RoleMakerArg.other true) rfl
    (PyErr.typeError roleMakerTypeErrorMsg) rfl
  exact ⟨h.1, h.2.1⟩

end OpenKS
